import Mathlib

/-!
Shallow embedding of `src/vs/workbench/contrib/notebook/browser/diff/diffElementViewModel.ts`.

Numbers (pixel heights, margins) are modelled as `Int`; the arithmetic involved is
exact integer addition.  Optional fields of TypeScript objects become `Option`,
`undefined` becoming `none`.  The abstract methods `isOutputEmpty` and
`getRichOutputTotalHeight` of the base class, whose results depend on subclass
state, are closed off as fields of the base-state structure, so that `_layout`
and `_getOutputTotalHeight` are pure functions of the state and the delta.
External collaborators (the `hash` function from `vs/base/common/hash`, and the
JSON serialize/format/applyEdits pipeline) are taken as arbitrary function
parameters, so theorems about them hold for every implementation.
-/

namespace NotebookDiff

/-- `PropertyFoldingState` from the source. -/
inductive PropertyFoldingState where
  | Expanded
  | Collapsed
deriving Repr, DecidableEq

/-- `IDiffElementLayoutInfo`: the layout record held in `_layoutInfo`. -/
structure IDiffElementLayoutInfo where
  width : Int
  editorHeight : Int
  editorMargin : Int
  metadataHeight : Int
  metadataStatusHeight : Int
  rawOutputHeight : Int
  outputTotalHeight : Int
  outputStatusHeight : Int
  bodyMargin : Int
  totalHeight : Int
deriving Repr, DecidableEq

/-- `ILayoutInfoDelta`: every key of `IDiffElementLayoutInfo` made optional,
plus the optional `recomputeOutput` flag.  An absent key is `none`. -/
structure ILayoutInfoDelta where
  width : Option Int := none
  editorHeight : Option Int := none
  editorMargin : Option Int := none
  metadataHeight : Option Int := none
  metadataStatusHeight : Option Int := none
  rawOutputHeight : Option Int := none
  outputTotalHeight : Option Int := none
  outputStatusHeight : Option Int := none
  bodyMargin : Option Int := none
  totalHeight : Option Int := none
  recomputeOutput : Option Bool := none
deriving Repr, DecidableEq

/-- `CellDiffViewModelLayoutChangeEvent`: the changed-fields event.  In the
source each field is an optional boolean set to `true` when changed; an unset
field is modelled as `false`. -/
structure CellDiffViewModelLayoutChangeEvent where
  width : Bool := false
  editorHeight : Bool := false
  editorMargin : Bool := false
  metadataHeight : Bool := false
  metadataStatusHeight : Bool := false
  outputTotalHeight : Bool := false
  outputStatusHeight : Bool := false
  bodyMargin : Bool := false
  totalHeight : Bool := false
  outerWidth : Bool := false
deriving Repr, DecidableEq

/-- The state of a `DiffElementViewModelBase` that `_layout` reads or writes:
`_layoutInfo`, the two folding states, `_renderOutput`, and (closing off the
open recursion of the abstract methods) the current results of
`isOutputEmpty()` and `getRichOutputTotalHeight()`. -/
structure DiffElementViewModelBase where
  layoutInfo : IDiffElementLayoutInfo
  metadataFoldingState : PropertyFoldingState
  outputFoldingState : PropertyFoldingState
  renderOutput : Bool
  isOutputEmpty : Bool
  getRichOutputTotalHeight : Int
deriving Repr, DecidableEq

/-- The `_layoutInfo` installed by the constructor of
`DiffElementViewModelBase`. -/
def initialLayoutInfo : IDiffElementLayoutInfo :=
  { width := 0
    editorHeight := 0
    editorMargin := 0
    metadataHeight := 0
    metadataStatusHeight := 25
    rawOutputHeight := 0
    outputTotalHeight := 0
    outputStatusHeight := 25
    bodyMargin := 32
    totalHeight := 82 }

/-- `DiffElementViewModelBase._getOutputTotalHeight`. -/
def _getOutputTotalHeight (s : DiffElementViewModelBase) (rawOutputHeight : Int) : Int :=
  if s.outputFoldingState = PropertyFoldingState.Collapsed then
    0
  else if s.renderOutput then
    if s.isOutputEmpty then
      -- single line;
      24
    else
      s.getRichOutputTotalHeight
  else
    rawOutputHeight

/-- `DiffElementViewModelBase._layout`: returns the new `_layoutInfo` and the
change event fired at the end.  Each field of the event is `true` exactly when
the corresponding comparison `newLayout.x !== this._layoutInfo.x` in the source
sets it (note: the source never compares `rawOutputHeight`). -/
def _layout (s : DiffElementViewModelBase) (delta : ILayoutInfoDelta) :
    IDiffElementLayoutInfo × CellDiffViewModelLayoutChangeEvent :=
  let width := delta.width.getD s.layoutInfo.width
  let editorHeight := delta.editorHeight.getD s.layoutInfo.editorHeight
  let editorMargin := delta.editorMargin.getD s.layoutInfo.editorMargin
  let metadataHeight := delta.metadataHeight.getD s.layoutInfo.metadataHeight
  let metadataStatusHeight := delta.metadataStatusHeight.getD s.layoutInfo.metadataStatusHeight
  let rawOutputHeight := delta.rawOutputHeight.getD s.layoutInfo.rawOutputHeight
  let outputStatusHeight := delta.outputStatusHeight.getD s.layoutInfo.outputStatusHeight
  let bodyMargin := delta.bodyMargin.getD s.layoutInfo.bodyMargin
  let outputHeight :=
    if delta.recomputeOutput.getD false || delta.rawOutputHeight.isSome then
      _getOutputTotalHeight s rawOutputHeight
    else
      s.layoutInfo.outputTotalHeight
  let totalHeight := editorHeight
    + editorMargin
    + metadataHeight
    + metadataStatusHeight
    + outputHeight
    + outputStatusHeight
    + bodyMargin
  let newLayout : IDiffElementLayoutInfo :=
    { width := width
      editorHeight := editorHeight
      editorMargin := editorMargin
      metadataHeight := metadataHeight
      metadataStatusHeight := metadataStatusHeight
      outputTotalHeight := outputHeight
      outputStatusHeight := outputStatusHeight
      bodyMargin := bodyMargin
      rawOutputHeight := rawOutputHeight
      totalHeight := totalHeight }
  let changeEvent : CellDiffViewModelLayoutChangeEvent :=
    { width := newLayout.width != s.layoutInfo.width
      editorHeight := newLayout.editorHeight != s.layoutInfo.editorHeight
      editorMargin := newLayout.editorMargin != s.layoutInfo.editorMargin
      metadataHeight := newLayout.metadataHeight != s.layoutInfo.metadataHeight
      metadataStatusHeight := newLayout.metadataStatusHeight != s.layoutInfo.metadataStatusHeight
      outputTotalHeight := newLayout.outputTotalHeight != s.layoutInfo.outputTotalHeight
      outputStatusHeight := newLayout.outputStatusHeight != s.layoutInfo.outputStatusHeight
      bodyMargin := newLayout.bodyMargin != s.layoutInfo.bodyMargin
      totalHeight := newLayout.totalHeight != s.layoutInfo.totalHeight }
  (newLayout, changeEvent)

/-- The state update performed by `_layout` (`this._layoutInfo = newLayout`). -/
def _layoutUpdate (s : DiffElementViewModelBase) (delta : ILayoutInfoDelta) :
    DiffElementViewModelBase :=
  { s with layoutInfo := (_layout s delta).1 }

/-- C1: in the initial layout state and after every `_layout` call,
`totalHeight` equals the sum of `editorHeight`, `editorMargin`,
`metadataHeight`, `metadataStatusHeight`, `outputTotalHeight`,
`outputStatusHeight` and `bodyMargin` of that same layout info. -/
theorem C1_totalHeight_invariant :
    (initialLayoutInfo.totalHeight =
      initialLayoutInfo.editorHeight
      + initialLayoutInfo.editorMargin
      + initialLayoutInfo.metadataHeight
      + initialLayoutInfo.metadataStatusHeight
      + initialLayoutInfo.outputTotalHeight
      + initialLayoutInfo.outputStatusHeight
      + initialLayoutInfo.bodyMargin)
    ∧ ∀ (s : DiffElementViewModelBase) (delta : ILayoutInfoDelta),
      (_layout s delta).1.totalHeight =
        (_layout s delta).1.editorHeight
        + (_layout s delta).1.editorMargin
        + (_layout s delta).1.metadataHeight
        + (_layout s delta).1.metadataStatusHeight
        + (_layout s delta).1.outputTotalHeight
        + (_layout s delta).1.outputStatusHeight
        + (_layout s delta).1.bodyMargin := by
  constructor
  · decide
  · intro s delta
    rfl

/-- A concrete base-state for witnesses and counterexamples: the state right
after the constructor (both folding states `Collapsed`, `_renderOutput` false),
with empty outputs reported as non-empty rich height 0. -/
def sampleVM : DiffElementViewModelBase :=
  { layoutInfo := initialLayoutInfo
    metadataFoldingState := PropertyFoldingState.Collapsed
    outputFoldingState := PropertyFoldingState.Collapsed
    renderOutput := false
    isOutputEmpty := false
    getRichOutputTotalHeight := 0 }

/-- C2: every field flagged `true` in the change event emitted by `_layout`
has a value in the new layout info that differs from its value in the previous
layout info. -/
theorem C2_flags_sound (s : DiffElementViewModelBase) (delta : ILayoutInfoDelta) :
    ((_layout s delta).2.width = true → (_layout s delta).1.width ≠ s.layoutInfo.width)
    ∧ ((_layout s delta).2.editorHeight = true →
        (_layout s delta).1.editorHeight ≠ s.layoutInfo.editorHeight)
    ∧ ((_layout s delta).2.editorMargin = true →
        (_layout s delta).1.editorMargin ≠ s.layoutInfo.editorMargin)
    ∧ ((_layout s delta).2.metadataHeight = true →
        (_layout s delta).1.metadataHeight ≠ s.layoutInfo.metadataHeight)
    ∧ ((_layout s delta).2.metadataStatusHeight = true →
        (_layout s delta).1.metadataStatusHeight ≠ s.layoutInfo.metadataStatusHeight)
    ∧ ((_layout s delta).2.outputTotalHeight = true →
        (_layout s delta).1.outputTotalHeight ≠ s.layoutInfo.outputTotalHeight)
    ∧ ((_layout s delta).2.outputStatusHeight = true →
        (_layout s delta).1.outputStatusHeight ≠ s.layoutInfo.outputStatusHeight)
    ∧ ((_layout s delta).2.bodyMargin = true →
        (_layout s delta).1.bodyMargin ≠ s.layoutInfo.bodyMargin)
    ∧ ((_layout s delta).2.totalHeight = true →
        (_layout s delta).1.totalHeight ≠ s.layoutInfo.totalHeight) := by
  simp only [_layout, bne_iff_ne, ne_eq]
  refine ⟨fun h => h, fun h => h, fun h => h, fun h => h, fun h => h, fun h => h,
    fun h => h, fun h => h, fun h => h⟩

/-- Witness for C2: at the freshly constructed state with a width-only delta,
the width flag fires and the theorem yields that the width indeed changed. -/
theorem C2_flags_sound_witness :
    (_layout sampleVM { width := some 5 }).1.width ≠ sampleVM.layoutInfo.width :=
  (C2_flags_sound sampleVM { width := some 5 }).1 (by decide)

/-- C3 counterexample: a `_layout` call with delta `rawOutputHeight = 10` on
the freshly constructed (output-collapsed) state changes
`layoutInfo.rawOutputHeight` from 0 to 10, yet the emitted change event is
entirely empty, so not every differing field of `layoutInfo` is flagged (a
change to `rawOutputHeight` is never reported). -/
theorem C3_counterexample :
    (_layout sampleVM { rawOutputHeight := some 10 }).1.rawOutputHeight
      ≠ sampleVM.layoutInfo.rawOutputHeight
    ∧ (_layout sampleVM { rawOutputHeight := some 10 }).2
      = ({} : CellDiffViewModelLayoutChangeEvent) := by
  decide

/-- C3 (amended): every field of `layoutInfo` other than `rawOutputHeight`,
namely `width`, `editorHeight`, `editorMargin`, `metadataHeight`,
`metadataStatusHeight`, `outputTotalHeight`, `outputStatusHeight`,
`bodyMargin` and `totalHeight`, is flagged in the change event whenever its
value differs between the previous and the new layout info; a change to
`rawOutputHeight` is not reported. -/
theorem C3_flags_complete (s : DiffElementViewModelBase) (delta : ILayoutInfoDelta) :
    ((_layout s delta).1.width ≠ s.layoutInfo.width → (_layout s delta).2.width = true)
    ∧ ((_layout s delta).1.editorHeight ≠ s.layoutInfo.editorHeight →
        (_layout s delta).2.editorHeight = true)
    ∧ ((_layout s delta).1.editorMargin ≠ s.layoutInfo.editorMargin →
        (_layout s delta).2.editorMargin = true)
    ∧ ((_layout s delta).1.metadataHeight ≠ s.layoutInfo.metadataHeight →
        (_layout s delta).2.metadataHeight = true)
    ∧ ((_layout s delta).1.metadataStatusHeight ≠ s.layoutInfo.metadataStatusHeight →
        (_layout s delta).2.metadataStatusHeight = true)
    ∧ ((_layout s delta).1.outputTotalHeight ≠ s.layoutInfo.outputTotalHeight →
        (_layout s delta).2.outputTotalHeight = true)
    ∧ ((_layout s delta).1.outputStatusHeight ≠ s.layoutInfo.outputStatusHeight →
        (_layout s delta).2.outputStatusHeight = true)
    ∧ ((_layout s delta).1.bodyMargin ≠ s.layoutInfo.bodyMargin →
        (_layout s delta).2.bodyMargin = true)
    ∧ ((_layout s delta).1.totalHeight ≠ s.layoutInfo.totalHeight →
        (_layout s delta).2.totalHeight = true) := by
  simp only [_layout, bne_iff_ne, ne_eq]
  refine ⟨fun h => h, fun h => h, fun h => h, fun h => h, fun h => h, fun h => h,
    fun h => h, fun h => h, fun h => h⟩

/-- Witness for C3 (amended): with a width-only delta on the fresh state, the
width differs and the theorem yields the width flag. -/
theorem C3_flags_complete_witness :
    (_layout sampleVM { width := some 5 }).2.width = true :=
  (C3_flags_complete sampleVM { width := some 5 }).1 (by decide)

/-- C4: frame property of `_layout`: each of `width`, `editorHeight`,
`editorMargin`, `metadataHeight`, `metadataStatusHeight`, `rawOutputHeight`,
`outputStatusHeight` and `bodyMargin` keeps its previous value when that field
is `undefined` in the delta; `outputTotalHeight` keeps its previous value when
the delta has neither `recomputeOutput` truthy nor `rawOutputHeight` defined. -/
theorem C4_frame (s : DiffElementViewModelBase) (delta : ILayoutInfoDelta) :
    (delta.width = none → (_layout s delta).1.width = s.layoutInfo.width)
    ∧ (delta.editorHeight = none →
        (_layout s delta).1.editorHeight = s.layoutInfo.editorHeight)
    ∧ (delta.editorMargin = none →
        (_layout s delta).1.editorMargin = s.layoutInfo.editorMargin)
    ∧ (delta.metadataHeight = none →
        (_layout s delta).1.metadataHeight = s.layoutInfo.metadataHeight)
    ∧ (delta.metadataStatusHeight = none →
        (_layout s delta).1.metadataStatusHeight = s.layoutInfo.metadataStatusHeight)
    ∧ (delta.rawOutputHeight = none →
        (_layout s delta).1.rawOutputHeight = s.layoutInfo.rawOutputHeight)
    ∧ (delta.outputStatusHeight = none →
        (_layout s delta).1.outputStatusHeight = s.layoutInfo.outputStatusHeight)
    ∧ (delta.bodyMargin = none →
        (_layout s delta).1.bodyMargin = s.layoutInfo.bodyMargin)
    ∧ (delta.recomputeOutput.getD false = false → delta.rawOutputHeight = none →
        (_layout s delta).1.outputTotalHeight = s.layoutInfo.outputTotalHeight) := by
  refine ⟨fun h => ?_, fun h => ?_, fun h => ?_, fun h => ?_, fun h => ?_, fun h => ?_,
    fun h => ?_, fun h => ?_, fun h1 h2 => ?_⟩
  all_goals simp_all [_layout]

/-- Witness for C4: the empty delta leaves every field of the fresh state's
layout info unchanged. -/
theorem C4_frame_witness :
    (_layout sampleVM {}).1.width = sampleVM.layoutInfo.width
    ∧ (_layout sampleVM {}).1.rawOutputHeight = sampleVM.layoutInfo.rawOutputHeight
    ∧ (_layout sampleVM {}).1.outputTotalHeight = sampleVM.layoutInfo.outputTotalHeight :=
  ⟨(C4_frame sampleVM {}).1 rfl,
    (C4_frame sampleVM {}).2.2.2.2.2.1 rfl,
    (C4_frame sampleVM {}).2.2.2.2.2.2.2.2 (by decide) rfl⟩

/-- C7: `_layout` is deterministic in the state it reads: two states agreeing
on `layoutInfo`, `outputFoldingState`, `renderOutput` and the abstract output
heights (`isOutputEmpty`, `getRichOutputTotalHeight`), given equal deltas,
produce equal new layout infos and equal change events. -/
theorem C7_layout_deterministic (s1 s2 : DiffElementViewModelBase)
    (delta : ILayoutInfoDelta)
    (h1 : s1.layoutInfo = s2.layoutInfo)
    (h2 : s1.outputFoldingState = s2.outputFoldingState)
    (h3 : s1.renderOutput = s2.renderOutput)
    (h4 : s1.isOutputEmpty = s2.isOutputEmpty)
    (h5 : s1.getRichOutputTotalHeight = s2.getRichOutputTotalHeight) :
    _layout s1 delta = _layout s2 delta := by
  simp only [_layout, _getOutputTotalHeight, h1, h2, h3, h4, h5]

/-- Witness for C7: two fresh states differing only in `metadataFoldingState`
produce identical `_layout` results. -/
theorem C7_layout_deterministic_witness :
    _layout sampleVM { editorHeight := some 7 }
      = _layout { sampleVM with metadataFoldingState := PropertyFoldingState.Expanded }
          { editorHeight := some 7 } :=
  C7_layout_deterministic sampleVM
    { sampleVM with metadataFoldingState := PropertyFoldingState.Expanded }
    { editorHeight := some 7 } rfl rfl rfl rfl rfl

/-- C8: when `outputFoldingState` is `Collapsed`, any `_layout` call that
recomputes output height (truthy `recomputeOutput` or defined
`rawOutputHeight` in the delta) sets `outputTotalHeight` to 0. -/
theorem C8_collapsed_output_zero (s : DiffElementViewModelBase)
    (delta : ILayoutInfoDelta)
    (hfold : s.outputFoldingState = PropertyFoldingState.Collapsed)
    (hrec : delta.recomputeOutput.getD false = true ∨ delta.rawOutputHeight.isSome = true) :
    (_layout s delta).1.outputTotalHeight = 0 := by
  rcases hrec with h | h <;> simp [_layout, _getOutputTotalHeight, hfold, h]

/-- Witness for C8: on the fresh (collapsed) state, setting
`rawOutputHeight` to 100 still leaves `outputTotalHeight` at 0. -/
theorem C8_collapsed_output_zero_witness :
    (_layout sampleVM { rawOutputHeight := some 100 }).1.outputTotalHeight = 0 :=
  C8_collapsed_output_zero sampleVM { rawOutputHeight := some 100 } rfl
    (Or.inr rfl)

/-- The slice of `TransientOptions` the source reads: the `transientOutputs`
flag and the `transientMetadata` record, the latter as the predicate telling
whether a metadata key is marked transient (truthy). -/
structure TransientOptions where
  transientOutputs : Bool
  transientMetadata : String → Bool

/-- The slice of `NotebookTextModel` that the diff view model reads. -/
structure NotebookTextModel where
  transientOptions : TransientOptions

/-- The slice of `DiffNestedCellViewModel` that `checkIfOutputsModified` and
`checkMetadataIfModified` read: the cell's outputs (kept abstract as strings),
its metadata record (as key/value pairs with distinct keys), and its
language. -/
structure DiffNestedCellViewModel where
  outputs : List String
  metadata : List (String × String)
  language : Option String
deriving Repr, DecidableEq

/-- `getFormatedMetadataJSON`: filters out the metadata keys marked transient,
then serializes `\x7b language, ...filteredMetadata \x7d` and formats it.  The
serialize/format/applyEdits pipeline lives in `vs/base` outside this slice and
is taken as the arbitrary function `fmtJSON` on the (language, filtered
metadata) pair it is applied to. -/
def getFormatedMetadataJSON (fmtJSON : Option String × List (String × String) → String)
    (documentTextModel : NotebookTextModel) (metadata : List (String × String))
    (language : Option String) : String :=
  let filteredMetadata :=
    metadata.filter (fun kv => !documentTextModel.transientOptions.transientMetadata kv.1)
  fmtJSON (language, filteredMetadata)

/-- `SideBySideDiffElementViewModel.checkIfOutputsModified`.  The `hash`
function from `vs/base/common/hash` is outside this slice and is taken as the
arbitrary function `hashOutputs`. -/
def checkIfOutputsModified (hashOutputs : List String → Nat)
    (documentTextModel : NotebookTextModel)
    (original modified : DiffNestedCellViewModel) : Bool :=
  !documentTextModel.transientOptions.transientOutputs
    && (hashOutputs original.outputs != hashOutputs modified.outputs)

/-- `SideBySideDiffElementViewModel.checkMetadataIfModified`, with the
external `hash` on strings and the JSON formatting pipeline as arbitrary
functions. -/
def checkMetadataIfModified (hashStr : String → Nat)
    (fmtJSON : Option String × List (String × String) → String)
    (documentTextModel : NotebookTextModel)
    (original modified : DiffNestedCellViewModel) : Bool :=
  hashStr (getFormatedMetadataJSON fmtJSON documentTextModel original.metadata original.language)
    != hashStr (getFormatedMetadataJSON fmtJSON documentTextModel modified.metadata modified.language)

/-- C5: `checkIfOutputsModified` returns `false` whenever `transientOutputs`
is set, and whenever the two cells' outputs are equal; when it returns `true`,
outputs are non-transient and actually differ. -/
theorem C5_outputs_modified (hashOutputs : List String → Nat)
    (documentTextModel : NotebookTextModel)
    (original modified : DiffNestedCellViewModel) :
    (documentTextModel.transientOptions.transientOutputs = true →
      checkIfOutputsModified hashOutputs documentTextModel original modified = false)
    ∧ (original.outputs = modified.outputs →
      checkIfOutputsModified hashOutputs documentTextModel original modified = false)
    ∧ (checkIfOutputsModified hashOutputs documentTextModel original modified = true →
      documentTextModel.transientOptions.transientOutputs = false
        ∧ original.outputs ≠ modified.outputs) := by
  refine ⟨fun h => ?_, fun h => ?_, fun h => ?_⟩
  · simp [checkIfOutputsModified, h]
  · simp [checkIfOutputsModified, h]
  · simp only [checkIfOutputsModified, Bool.and_eq_true, Bool.not_eq_true',
      bne_iff_ne, ne_eq] at h
    exact ⟨h.1, fun heq => h.2 (by rw [heq])⟩

/-- A notebook model with transient outputs and no transient metadata keys. -/
def transientDoc : NotebookTextModel :=
  { transientOptions := { transientOutputs := true, transientMetadata := fun _ => false } }

/-- A notebook model with non-transient outputs and the metadata key
`execution` marked transient. -/
def plainDoc : NotebookTextModel :=
  { transientOptions := { transientOutputs := false, transientMetadata := fun k => k == "execution" } }

/-- A sample cell with one output. -/
def cellA : DiffNestedCellViewModel :=
  { outputs := ["a"], metadata := [("execution", "1"), ("tags", "x")], language := some "py" }

/-- A sample cell equal to `cellA` except in the transient `execution`
metadata key. -/
def cellB : DiffNestedCellViewModel :=
  { outputs := ["a"], metadata := [("execution", "2"), ("tags", "x")], language := some "py" }

/-- Witness for C5, at a concrete hash (list length), transient outputs, and
equal outputs. -/
theorem C5_outputs_modified_witness :
    checkIfOutputsModified (fun l => l.length) transientDoc cellA cellB = false
    ∧ checkIfOutputsModified (fun l => l.length) plainDoc cellA cellA = false :=
  ⟨(C5_outputs_modified (fun l => l.length) transientDoc cellA cellB).1 rfl,
    (C5_outputs_modified (fun l => l.length) plainDoc cellA cellA).2.1 rfl⟩

/-- C6: if the two cells have the same language and the same metadata after
removing the keys marked transient, then `checkMetadataIfModified` returns
`false`. -/
theorem C6_metadata_unmodified (hashStr : String → Nat)
    (fmtJSON : Option String × List (String × String) → String)
    (documentTextModel : NotebookTextModel)
    (original modified : DiffNestedCellViewModel)
    (hlang : original.language = modified.language)
    (hmeta : original.metadata.filter
        (fun kv => !documentTextModel.transientOptions.transientMetadata kv.1)
      = modified.metadata.filter
        (fun kv => !documentTextModel.transientOptions.transientMetadata kv.1)) :
    checkMetadataIfModified hashStr fmtJSON documentTextModel original modified = false := by
  simp [checkMetadataIfModified, getFormatedMetadataJSON, hlang, hmeta]

/-- Witness for C6: metadata differing only in a transient key, same
language, concrete string hash and serializer. -/
theorem C6_metadata_unmodified_witness :
    checkMetadataIfModified (fun str => str.length) (fun p => toString p.2)
      plainDoc cellA cellB = false :=
  C6_metadata_unmodified (fun str => str.length) (fun p => toString p.2)
    plainDoc cellA cellB rfl (by decide)

/-- The `'insert' | 'delete'` type tag of `SingleSideDiffElementViewModel`. -/
inductive SingleSideType where
  | insert
  | delete
deriving Repr, DecidableEq

/-- The slice of `SingleSideDiffElementViewModel` state its two check methods
could read: the base state, the document model, the one-sided cells and the
type tag. -/
structure SingleSideDiffElementViewModel where
  base : DiffElementViewModelBase
  documentTextModel : NotebookTextModel
  original : Option DiffNestedCellViewModel
  modified : Option DiffNestedCellViewModel
  type : SingleSideType

/-- `SingleSideDiffElementViewModel.checkIfOutputsModified`. -/
def SingleSideDiffElementViewModel.checkIfOutputsModified
    (_s : SingleSideDiffElementViewModel) : Bool :=
  false

/-- `SingleSideDiffElementViewModel.checkMetadataIfModified`. -/
def SingleSideDiffElementViewModel.checkMetadataIfModified
    (_s : SingleSideDiffElementViewModel) : Bool :=
  false

/-- C9: a single-sided cell is never reported as having modified outputs or
metadata, for every instance and state. -/
theorem C9_single_side_never_modified (s : SingleSideDiffElementViewModel) :
    s.checkIfOutputsModified = false ∧ s.checkMetadataIfModified = false :=
  ⟨rfl, rfl⟩

/-- Getter for `rawOutputHeight` on the base class: always throws. -/
def getRawOutputHeight (_s : DiffElementViewModelBase) : Except String Int :=
  Except.error "Use Cell.layoutInfo.rawOutputHeight"

/-- Getter for `outputStatusHeight` on the base class: always throws. -/
def getOutputStatusHeight (_s : DiffElementViewModelBase) : Except String Int :=
  Except.error "Use Cell.layoutInfo.outputStatusHeight"

/-- Getter for `editorHeight` on the base class: always throws. -/
def getEditorHeight (_s : DiffElementViewModelBase) : Except String Int :=
  Except.error "Use Cell.layoutInfo.editorHeight"

/-- Getter for `editorMargin` on the base class: always throws. -/
def getEditorMargin (_s : DiffElementViewModelBase) : Except String Int :=
  Except.error "Use Cell.layoutInfo.editorMargin"

/-- Getter for `metadataHeight` on the base class: always throws. -/
def getMetadataHeight (_s : DiffElementViewModelBase) : Except String Int :=
  Except.error "Use Cell.layoutInfo.metadataHeight"

/-- Setter for `rawOutputHeight`: runs `_layout` with that single delta. -/
def setRawOutputHeight (s : DiffElementViewModelBase) (height : Int) :
    DiffElementViewModelBase :=
  _layoutUpdate s { rawOutputHeight := some height }

/-- Setter for `outputStatusHeight`: runs `_layout` with that single delta. -/
def setOutputStatusHeight (s : DiffElementViewModelBase) (height : Int) :
    DiffElementViewModelBase :=
  _layoutUpdate s { outputStatusHeight := some height }

/-- Setter for `editorHeight`: runs `_layout` with that single delta. -/
def setEditorHeight (s : DiffElementViewModelBase) (height : Int) :
    DiffElementViewModelBase :=
  _layoutUpdate s { editorHeight := some height }

/-- Setter for `editorMargin`: runs `_layout` with that single delta. -/
def setEditorMargin (s : DiffElementViewModelBase) (margin : Int) :
    DiffElementViewModelBase :=
  _layoutUpdate s { editorMargin := some margin }

/-- Setter for `metadataHeight`: runs `_layout` with that single delta. -/
def setMetadataHeight (s : DiffElementViewModelBase) (height : Int) :
    DiffElementViewModelBase :=
  _layoutUpdate s { metadataHeight := some height }

/-- C10: reading any of the five accessor properties always throws an error
directing the caller to `layoutInfo`, for every state; each corresponding
setter instead installs the layout produced by `_layout` with the singleton
delta for its field. -/
theorem C10_getters_throw (s : DiffElementViewModelBase) (height : Int) :
    getRawOutputHeight s = Except.error "Use Cell.layoutInfo.rawOutputHeight"
    ∧ getOutputStatusHeight s = Except.error "Use Cell.layoutInfo.outputStatusHeight"
    ∧ getEditorHeight s = Except.error "Use Cell.layoutInfo.editorHeight"
    ∧ getEditorMargin s = Except.error "Use Cell.layoutInfo.editorMargin"
    ∧ getMetadataHeight s = Except.error "Use Cell.layoutInfo.metadataHeight"
    ∧ (setRawOutputHeight s height).layoutInfo
        = (_layout s { rawOutputHeight := some height }).1
    ∧ (setOutputStatusHeight s height).layoutInfo
        = (_layout s { outputStatusHeight := some height }).1
    ∧ (setEditorHeight s height).layoutInfo
        = (_layout s { editorHeight := some height }).1
    ∧ (setEditorMargin s height).layoutInfo
        = (_layout s { editorMargin := some height }).1
    ∧ (setMetadataHeight s height).layoutInfo
        = (_layout s { metadataHeight := some height }).1 :=
  ⟨rfl, rfl, rfl, rfl, rfl, rfl, rfl, rfl, rfl, rfl⟩

end NotebookDiff
